import Mathlib

/-!
Verification of the UrbanMart synthetic-sales repository.

Shallow embedding of the three Python source files:
  generate_urbanmart_sales.py  (synthetic transaction generator),
  Urbanmart_analysis.py        (analysis entry point),
  app.py                       (dashboard).

Modelling conventions:
  * Money and probabilities are exact rationals; numpy round(x, 2) becomes
    round2 below (round to an integer number of cents).
  * Dates are day counts since 1970-01-01 (the numpy datetime64 day
    representation); serialization converts to a civil date and renders
    it as an ISO 8601 string, mirroring how pandas writes a
    midnight-only datetime column to CSV.
  * Every random draw of the generator is an oracle value packaged in a
    Draws record, one per transaction; the hypotheses in DrawsValid state
    exactly the support guarantees of the numpy calls used by the code
    (integers in the half-open requested range, uniform in the half-open
    interval, weighted choice only returning items of nonzero weight).
  * The CSV round trip of the reporting layer is modelled as the identity
    on tables, and numeric cells are rendered with a plain rational
    printer: no claim below depends on the numeric cell format.
-/

namespace UrbanMart

/-- round(x, 2) of the source: round to the nearest multiple of 1/100. -/
def round2 (x : ℚ) : ℚ := (round (100 * x) : ℤ) / 100

/-- Python str.zfill: left-pad a string with zeros up to the given width. -/
def zfill (width : ℕ) (s : String) : String :=
  if s.length < width then String.mk (List.replicate (width - s.length) '0' ++ s.data) else s

/-- Transaction id f-string: T followed by the 7-digit zero-filled index. -/
def txnId (i : ℕ) : String := "T" ++ zfill 7 (toString i)

/-- Customer id f-string: C followed by the 5-digit zero-filled index. -/
def customerId (i : ℕ) : String := "C" ++ zfill 5 (toString i)

/-- The fixed store table of the generator (id, location pairs). -/
def stores : List (String × String) :=
  [("S001", "Downtown"), ("S002", "Uptown"), ("S003", "Midtown"),
   ("S004", "Riverside"), ("S005", "Tech Park"), ("S006", "Old Town")]

/-- store_ids array. -/
def storeIds : List String := stores.map (fun s => s.1)

/-- store_probs array. -/
def store_probs : List ℚ := [0.22, 0.18, 0.20, 0.14, 0.16, 0.10]

/-- Category list, in the insertion order of the catalog dict. -/
def categories : List String :=
  ["Groceries", "Beverages", "Household", "Personal Care", "Electronics", "Clothing"]

/-- The fixed product catalog: category name to list of (product, base price). -/
def catalog (cat : String) : List (String × ℚ) :=
  if cat = "Groceries" then
    [("Rice 5kg", 18), ("Pasta Pack", 2.5), ("Olive Oil 1L", 10),
     ("Breakfast Cereal", 4.5), ("Coffee 250g", 6)]
  else if cat = "Beverages" then
    [("Sparkling Water 6-pack", 4), ("Orange Juice", 3.5),
     ("Soda 12-pack", 7.5), ("Green Tea Box", 3)]
  else if cat = "Household" then
    [("Laundry Detergent", 9), ("Dish Soap", 3), ("Paper Towels", 6.5), ("Trash Bags", 5)]
  else if cat = "Personal Care" then
    [("Shampoo", 6), ("Toothpaste", 2.5), ("Body Wash", 5.5), ("Deodorant", 4)]
  else if cat = "Electronics" then
    [("Wireless Earbuds", 45), ("Phone Charger", 15), ("Smart Speaker", 60), ("Power Bank", 25)]
  else if cat = "Clothing" then
    [("T-Shirt", 12), ("Jeans", 35), ("Sneakers", 55), ("Jacket", 70)]
  else []

/-- Number of customers in the pre-generated pool. -/
def nCustomers : ℕ := 5000

/-- Customer segment labels. -/
def segments : List String := ["Budget", "Regular", "Premium"]

/-- segment_probs array. -/
def segment_probs : List ℚ := [0.35, 0.5, 0.15]

/-- channels array. -/
def channels : List String := ["Online", "In-store"]

/-- channel_probs array. -/
def channel_probs : List ℚ := [0.35, 0.65]

/-- base_cat_probs array. -/
def base_cat_probs : List ℚ := [0.32, 0.14, 0.16, 0.14, 0.12, 0.12]

/-- cat_probs_online before renormalization: copy of base_cat_probs with 0.05
added at the Electronics index, 0.03 removed at Groceries and 0.02 at
Household, exactly as the three in-place updates of the source. -/
def cat_probs_online_raw : List ℚ :=
  let l1 := base_cat_probs.set (categories.indexOf "Electronics")
    (base_cat_probs.getD (categories.indexOf "Electronics") 0 + 0.05)
  let l2 := l1.set (categories.indexOf "Groceries")
    (l1.getD (categories.indexOf "Groceries") 0 - 0.03)
  let l3 := l2.set (categories.indexOf "Household")
    (l2.getD (categories.indexOf "Household") 0 - 0.02)
  l3

/-- cat_probs_online after the explicit renormalization by its own sum. -/
def cat_probs_online : List ℚ :=
  cat_probs_online_raw.map (fun x => x / cat_probs_online_raw.sum)

/-- The per-channel category weights: the conditional of the generation loop. -/
def catProbsFor (ch : String) : List ℚ :=
  if ch = "Online" then cat_probs_online else base_cat_probs

/-- Quantity range by category, as the (inclusive, exclusive) bounds passed to
rng.integers in each branch of the source. -/
def qtyRange (cat : String) : ℕ × ℕ :=
  if cat ∈ ["Groceries", "Beverages", "Household", "Personal Care"] then (1, 6)
  else if cat = "Clothing" then (1, 4)
  else (1, 3)

/-- Discount support and weights by category, as the (values, probabilities)
passed to rng.choice in each branch of the source. -/
def discountTable (cat : String) : List (ℚ × ℚ) :=
  if cat = "Groceries" then [(0, 0.75), (0.05, 0.18), (0.10, 0.07)]
  else if cat ∈ ["Beverages", "Household", "Personal Care"] then
    [(0, 0.55), (0.05, 0.25), (0.10, 0.15), (0.15, 0.05)]
  else if cat = "Clothing" then [(0, 0.35), (0.10, 0.35), (0.20, 0.20), (0.30, 0.10)]
  else [(0, 0.40), (0.05, 0.25), (0.10, 0.20), (0.15, 0.10), (0.20, 0.05)]

/-- Payment method labels. -/
def pm : List String := ["Card", "Cash", "Wallet", "UPI"]

/-- pm_probs_instore array. -/
def pm_probs_instore : List ℚ := [0.45, 0.25, 0.15, 0.15]

/-- pm_probs_online array: the Cash weight is exactly 0. -/
def pm_probs_online : List ℚ := [0.55, 0.00, 0.25, 0.20]

/-- The per-channel payment weights: the conditional of the payment loop. -/
def pmProbsFor (ch : String) : List ℚ :=
  if ch = "Online" then pm_probs_online else pm_probs_instore

/-- One generated transaction row (the 14 columns of the DataFrame). -/
structure Record where
  transaction_id : String
  date : ℕ
  store_id : String
  store_location : String
  transaction_type : String
  customer_id : String
  customer_segment : String
  product_category : String
  product_name : String
  unit_price : ℚ
  quantity : ℕ
  discount_pct : ℚ
  sales_amount : ℚ
  payment_method : String
deriving DecidableEq

/-- The random outcomes consumed for one transaction, one field per numpy
draw of the generator. -/
structure Draws where
  dayOffset : ℕ
  storeIdx : ℕ
  channelIdx : ℕ
  catIdx : ℕ
  prodIdx : ℕ
  priceFactor : ℚ
  qtyDraw : ℕ
  discIdx : ℕ
  custIdx : ℕ
  payIdx : ℕ
deriving DecidableEq

/-- Generation parameters: transaction count and the day numbers of the
inclusive date range (days since 1970-01-01). -/
structure GenParams where
  n_transactions : ℕ
  startDay : ℕ
  endDay : ℕ
deriving DecidableEq

/-- days = (end - start) + 1, the exclusive bound for the day-offset draw. -/
def GenParams.days (p : GenParams) : ℕ := p.endDay - p.startDay + 1

/-- The default parameters of generate_urbanmart_sales: 25000 transactions,
2024-01-01 (day 19723) through 2024-12-31 (day 20088). -/
def defaultParams : GenParams := ⟨25000, 19723, 20088⟩

/-- The support guarantees of the numpy draws used for one transaction:
integers lie in the requested half-open range, uniform lies in the half-open
interval, and weighted choice only returns an index of nonzero weight. -/
def DrawsValid (p : GenParams) (d : Draws) : Prop :=
  d.dayOffset < p.days ∧
  d.storeIdx < storeIds.length ∧ store_probs.getD d.storeIdx 0 ≠ 0 ∧
  d.channelIdx < channels.length ∧ channel_probs.getD d.channelIdx 0 ≠ 0 ∧
  d.catIdx < categories.length ∧
  (catProbsFor (channels.getD d.channelIdx "")).getD d.catIdx 0 ≠ 0 ∧
  d.prodIdx < (catalog (categories.getD d.catIdx "")).length ∧
  (0.95 : ℚ) ≤ d.priceFactor ∧ d.priceFactor < (1.10 : ℚ) ∧
  (qtyRange (categories.getD d.catIdx "")).1 ≤ d.qtyDraw ∧
  d.qtyDraw < (qtyRange (categories.getD d.catIdx "")).2 ∧
  d.discIdx < (discountTable (categories.getD d.catIdx "")).length ∧
  ((discountTable (categories.getD d.catIdx "")).getD d.discIdx (0, 0)).2 ≠ 0 ∧
  d.custIdx < nCustomers ∧
  d.payIdx < pm.length ∧
  (pmProbsFor (channels.getD d.channelIdx "")).getD d.payIdx 0 ≠ 0

instance (p : GenParams) (d : Draws) : Decidable (DrawsValid p d) := by
  unfold DrawsValid; infer_instance

/-- Build the i-th transaction record (i is the 1-based sequential index used
for the transaction id) from its draws and the segment assignment of the
customer pool, translating the per-field assignments of the source. -/
def mkRecord (p : GenParams) (i : ℕ) (d : Draws) (segAssign : ℕ → ℕ) : Record :=
  let ch := channels.getD d.channelIdx ""
  let cat := categories.getD d.catIdx ""
  let pr := (catalog cat).getD d.prodIdx ("", 0)
  let price := round2 (pr.2 * d.priceFactor)
  let q := d.qtyDraw
  let disc := ((discountTable cat).getD d.discIdx (0, 0)).1
  let sid := storeIds.getD d.storeIdx ""
  { transaction_id := txnId i
    date := p.startDay + d.dayOffset
    store_id := sid
    store_location := (stores.lookup sid).getD ""
    transaction_type := ch
    customer_id := customerId (d.custIdx + 1)
    customer_segment := segments.getD (segAssign d.custIdx) ""
    product_category := cat
    product_name := pr.1
    unit_price := price
    quantity := q
    discount_pct := disc
    sales_amount := round2 (price * (q : ℚ) * (1 - disc))
    payment_method := pm.getD d.payIdx "" }

/-- Insert a record into a date-sorted list, keeping it sorted by date. -/
def insertByDate (r : Record) : List Record → List Record
  | [] => [r]
  | x :: xs => if r.date ≤ x.date then r :: x :: xs else x :: insertByDate r xs

/-- Sort a list of records by date: the model of sort_values on the date
column (any deterministic comparison sort; no claim depends on tie order). -/
def sortByDate : List Record → List Record
  | [] => []
  | x :: xs => insertByDate x (sortByDate xs)

/-- The generator: build one record per index from its draws, assign the
sequential transaction ids before sorting, then sort by date. -/
def generate (p : GenParams) (draws : ℕ → Draws) (segAssign : ℕ → ℕ) : List Record :=
  sortByDate ((List.range p.n_transactions).map (fun i => mkRecord p (i + 1) (draws i) segAssign))

/-- The generator as called with a seed: numpy default_rng(seed) makes every
draw (transaction draws and the customer-pool segment assignment) a
deterministic function of the seed, abstracted here as the two streams. -/
def generateSeeded (stream : ℕ → ℕ → Draws) (segStream : ℕ → ℕ → ℕ)
    (p : GenParams) (seed : ℕ) : List Record :=
  generate p (stream seed) (segStream seed)

/-- Convert a day count since 1970-01-01 to a (year, month, day) civil date
(standard era-based civil-from-days computation, as performed by the
datetime stack when rendering a datetime64 day value). -/
def civilFromDays (z0 : ℕ) : ℕ × ℕ × ℕ :=
  let z := z0 + 719468
  let era := z / 146097
  let doe := z % 146097
  let yoe := (doe - doe / 1460 + doe / 36524 - doe / 146096) / 365
  let y := yoe + era * 400
  let doy := doe - (365 * yoe + yoe / 4 - yoe / 100)
  let mp := (5 * doy + 2) / 153
  let d := doy - (153 * mp + 2) / 5 + 1
  let m := if mp < 10 then mp + 3 else mp - 9
  (if m ≤ 2 then y + 1 else y, m, d)

/-- Render a civil date as the 10-character ISO 8601 string YYYY-MM-DD,
digit characters built positionally (the strftime percent-Y-m-d layout). -/
def isoDate (y m d : ℕ) : String :=
  String.mk [Nat.digitChar (y / 1000 % 10), Nat.digitChar (y / 100 % 10),
             Nat.digitChar (y / 10 % 10), Nat.digitChar (y % 10), '-',
             Nat.digitChar (m / 10 % 10), Nat.digitChar (m % 10), '-',
             Nat.digitChar (d / 10 % 10), Nat.digitChar (d % 10)]

/-- Serialize a stored day count the way pandas writes a midnight-only
datetime column to CSV: as the ISO date string. -/
def dateStr (day : ℕ) : String :=
  match civilFromDays day with
  | (y, m, d) => isoDate y m d

/-- Checks that a string has the exact shape of an ISO 8601 date:
four digits, a dash, two digits, a dash, two digits. -/
def isIsoDateStr (s : String) : Bool :=
  match s.data with
  | [c0, c1, c2, c3, c4, c5, c6, c7, c8, c9] =>
    c0.isDigit && c1.isDigit && c2.isDigit && c3.isDigit && (c4 == '-') &&
    c5.isDigit && c6.isDigit && (c7 == '-') && c8.isDigit && c9.isDigit
  | _ => false

/-- Plain rational printer for the numeric CSV cells (no claim depends on
the numeric cell format). -/
def ratStr (q : ℚ) : String := toString q.num ++ "/" ++ toString q.den

/-- The header row of the persisted CSV: the DataFrame column names in
construction order, as written by to_csv. -/
def csvHeader : List String :=
  ["transaction_id", "date", "store_id", "store_location", "transaction_type",
   "customer_id", "customer_segment", "product_category", "product_name",
   "unit_price", "quantity", "discount_pct", "sales_amount", "payment_method"]

/-- The 14 column names listed in section 3 of the specification (used only
to compare the spec wording against the header the code writes). -/
def specHeader : List String :=
  ["transaction_id", "date", "store_id", "store_location", "channel",
   "customer_id", "customer_segment", "product_category", "product_name",
   "unit_price", "quantity", "discount_pct", "sales_amount", "payment_method"]

/-- The cell list of one CSV data row, in column order; no index cell is
emitted (to_csv is called with index=False). -/
def recordFields (r : Record) : List String :=
  [r.transaction_id, dateStr r.date, r.store_id, r.store_location,
   r.transaction_type, r.customer_id, r.customer_segment, r.product_category,
   r.product_name, ratStr r.unit_price, toString r.quantity,
   ratStr r.discount_pct, ratStr r.sales_amount, r.payment_method]

/-- The persisted file as a list of cell rows: header first, then one row
per transaction. -/
def csvLines (rows : List Record) : List (List String) :=
  csvHeader :: rows.map recordFields

/-- The persisted file as one string: comma-delimited cells, newline-separated
rows. -/
def csvText (rows : List Record) : String :=
  String.intercalate "\n" ((csvLines rows).map (String.intercalate ","))

/-- A cell of the transaction_type column as seen by the manual counter:
a string, a null, or a non-string scalar. -/
inductive Cell where
  | str : String → Cell
  | null : Cell
  | num : Int → Cell
deriving DecidableEq

/-- ASCII lowercase of one character (the effect of str.lower on the ASCII
inputs handled by the counter). -/
def lowerChar (c : Char) : Char :=
  if 'A' ≤ c ∧ c ≤ 'Z' then Char.ofNat (c.toNat + 32) else c

/-- Python str.lower, character by character. -/
def pyLower (s : String) : String := String.mk (s.data.map lowerChar)

/-- Python str.strip whitespace set. -/
def isPySpace (c : Char) : Bool :=
  c = ' ' || c = '\t' || c = '\n' || c = '\r' || c = '\x0b' || c = '\x0c'

/-- Python str.strip: drop leading and trailing whitespace. -/
def pyStrip (s : String) : String :=
  String.mk (((s.data.dropWhile isPySpace).reverse.dropWhile isPySpace).reverse)

/-- One iteration of the manual counting loop of the analysis entry point:
only string cells are inspected; after strip and lower, online increments
the first counter and the three in-store variants increment the second;
everything else leaves the pair unchanged. -/
def countStep (acc : ℕ × ℕ) (c : Cell) : ℕ × ℕ :=
  match c with
  | Cell.str t =>
    let tt := pyLower (pyStrip t)
    if tt = "online" then (acc.1 + 1, acc.2)
    else if tt = "in-store" || tt = "instore" || tt = "in store" then (acc.1, acc.2 + 1)
    else acc
  | _ => acc

/-- The manual transaction-type counter: fold of the loop body over the
column, starting from zero counters (online, in-store). -/
def countTypes (l : List Cell) : ℕ × ℕ := l.foldl countStep (0, 0)

/-- The input list of the counter test in the specification. -/
def counterTestInput : List Cell :=
  [Cell.str "Online", Cell.str "ONLINE ", Cell.str "in-store", Cell.str "InStore",
   Cell.str "in store", Cell.null, Cell.num 42, Cell.str "other"]

/-- The ensure-dataset logic of the analysis entry point: when the CSV is
absent, generate_urbanmart_sales is invoked with n_transactions 25000 and
seed 42 (writing the file), then the file is read; when present, the file
is read as is. The CSV round trip is modelled as the identity on tables.
Returns (file contents afterwards, table read). -/
def analysisEnsure (file : Option (List Record)) (stream : ℕ → ℕ → Draws)
    (segStream : ℕ → ℕ → ℕ) : Option (List Record) × List Record :=
  match file with
  | Option.none =>
    let df := generate defaultParams (stream 42) (segStream 42)
    (some df, df)
  | some t => (some t, t)

/-- The cached data loader of the dashboard: same regenerate-if-absent logic
with the same default parameters and seed, then the read table (the
to_datetime and to_numeric coercions succeed on every generated row, so the
dropna of the source removes nothing in this model). -/
def getData (file : Option (List Record)) (stream : ℕ → ℕ → Draws)
    (segStream : ℕ → ℕ → ℕ) : Option (List Record) × List Record :=
  match file with
  | Option.none =>
    let df := generate defaultParams (stream 42) (segStream 42)
    (some df, df)
  | some t => (some t, t)

/-- The sidebar filter of the dashboard: date between the selected bounds,
store id, category and channel each in the selected list. -/
def applyFilters (df : List Record) (startD endD : ℕ)
    (storeSel catSel chanSel : List String) : List Record :=
  df.filter (fun r =>
    decide (startD ≤ r.date) && decide (r.date ≤ endD) &&
    storeSel.contains r.store_id && catSel.contains r.product_category &&
    chanSel.contains r.transaction_type)

/-- total_sales of the KPI header: sum of sales_amount over the filtered
subset. -/
def totalSales (fdf : List Record) : ℚ := (fdf.map (fun r => r.sales_amount)).sum

/-- orders of the KPI header: number of distinct transaction ids in the
filtered subset. -/
def orders (fdf : List Record) : ℕ := ((fdf.map (fun r => r.transaction_id)).dedup).length

/-- The average-order-value KPI: total_sales / orders if orders else 0.0,
with the Python truthiness test on the integer orders count. -/
def aov (fdf : List Record) : ℚ :=
  if orders fdf ≠ 0 then totalSales fdf / (orders fdf : ℚ) else 0

/-- Small parameter set for concrete evaluation: one transaction over the
default 2024 date range. -/
def wParams : GenParams := ⟨1, 19723, 20088⟩

/-- A concrete draw tuple: first store, Online channel, Groceries, first
product, price factor 1, quantity 1, first discount entry, first customer,
Card payment. -/
def wDraws : Draws := ⟨0, 0, 0, 0, 0, 1, 1, 0, 0, 0⟩

/-- The record generated from wDraws. -/
def wRecord : Record := mkRecord wParams 1 wDraws (fun _ => 0)

/-- A second concrete draw tuple used as evaluation input: In-store channel,
Clothing, the T-Shirt product at price factor 381/400 = 0.9525, quantity 1,
the 30 percent discount entry. -/
def cDraws : Draws := ⟨0, 0, 1, 5, 0, 381 / 400, 1, 3, 0, 0⟩

/-- The record generated from cDraws. -/
def cRecord : Record := mkRecord wParams 1 cDraws (fun _ => 0)

/-! Helper lemmas. -/

theorem insertByDate_perm (r : Record) (l : List Record) :
    (insertByDate r l).Perm (r :: l) := by
  induction l with
  | nil => exact List.Perm.refl _
  | cons x xs ih =>
    unfold insertByDate
    by_cases h : r.date ≤ x.date
    · rw [if_pos h]
    · rw [if_neg h]
      exact (ih.cons x).trans (List.Perm.swap r x xs)

theorem sortByDate_perm (l : List Record) : (sortByDate l).Perm l := by
  induction l with
  | nil => exact List.Perm.refl _
  | cons x xs ih => exact (insertByDate_perm x (sortByDate xs)).trans (ih.cons x)

theorem mem_generate {p : GenParams} {draws : ℕ → Draws} {seg : ℕ → ℕ} {r : Record}
    (h : r ∈ generate p draws seg) :
    ∃ i, i < p.n_transactions ∧ r = mkRecord p (i + 1) (draws i) seg := by
  have h2 := (sortByDate_perm _).mem_iff.mp h
  rcases List.mem_map.mp h2 with ⟨i, hi, hr⟩
  exact ⟨i, List.mem_range.mp hi, hr.symm⟩

theorem length_generate (p : GenParams) (draws : ℕ → Draws) (seg : ℕ → ℕ) :
    (generate p draws seg).length = p.n_transactions := by
  unfold generate
  rw [(sortByDate_perm _).length_eq, List.length_map, List.length_range]

theorem getD_mem_or {α : Type} (l : List α) (j : ℕ) (d : α) :
    l.getD j d ∈ l ∨ l.getD j d = d := by
  induction l generalizing j with
  | nil => right; simp [List.getD]
  | cons x xs ih =>
    cases j with
    | zero => left; simp [List.getD]
    | succ n =>
      rcases ih n with h | h
      · left; simp only [List.getD_cons_succ]; exact List.mem_cons_of_mem x h
      · right; simpa using h

theorem round2_mono {x y : ℚ} (h : x ≤ y) : round2 x ≤ round2 y := by
  unfold round2
  have hr : round (100 * x) ≤ round (100 * y) := by
    rw [round_eq, round_eq]
    exact Int.floor_mono (by linarith)
  have hc : ((round (100 * x) : ℤ) : ℚ) ≤ ((round (100 * y) : ℤ) : ℚ) := by exact_mod_cast hr
  linarith

theorem round2_nonneg {x : ℚ} (h : 0 ≤ x) : 0 ≤ round2 x := by
  have h0 : round2 0 = 0 := by unfold round2; norm_num
  calc (0 : ℚ) = round2 0 := h0.symm
    _ ≤ round2 x := round2_mono h

theorem round2_close (x : ℚ) : x - 1 / 200 ≤ round2 x ∧ round2 x ≤ x + 1 / 200 := by
  have h := abs_sub_round (100 * x)
  rw [abs_le] at h
  unfold round2
  constructor <;> [linarith [h.1]; linarith [h.2]]

theorem round2_eq_self {x : ℚ} (z : ℤ) (h : 100 * x = (z : ℚ)) : round2 x = x := by
  unfold round2
  rw [h, round_intCast]
  linarith

theorem round2_mul_nat (y : ℚ) (q : ℕ) :
    round2 (round2 y * (q : ℚ)) = round2 y * (q : ℚ) := by
  refine round2_eq_self ((round (100 * y)) * (q : ℤ)) ?_
  unfold round2
  push_cast
  ring

theorem catalog_base_lb (c : String) : ∀ pr ∈ catalog c, (5 / 2 : ℚ) ≤ pr.2 := by
  intro pr hpr
  unfold catalog at hpr
  split_ifs at hpr <;> fin_cases hpr <;> norm_num

theorem discount_bounds (c : String) : ∀ pr ∈ discountTable c,
    0 ≤ pr.1 ∧ pr.1 ≤ 3 / 10 ∧ (pr.1 = 0 ∨ 1 / 20 ≤ pr.1) := by
  intro pr hpr
  unfold discountTable at hpr
  split_ifs at hpr <;> fin_cases hpr <;> norm_num

theorem qtyRange_lo (c : String) : (qtyRange c).1 = 1 := by
  unfold qtyRange
  split_ifs <;> rfl

theorem digitChar_isDigit : ∀ k : ℕ, k < 10 → (Nat.digitChar k).isDigit = true := by decide

theorem isIso_isoDate (y m d : ℕ) : isIsoDateStr (isoDate y m d) = true := by
  have h : ∀ k : ℕ, (Nat.digitChar (k % 10)).isDigit = true := fun k =>
    digitChar_isDigit (k % 10) (Nat.mod_lt k (by norm_num))
  simp [isIsoDateStr, isoDate, h]

theorem isIso_dateStr (n : ℕ) : isIsoDateStr (dateStr n) = true := by
  unfold dateStr
  obtain ⟨y, m, d⟩ := civilFromDays n
  exact isIso_isoDate y m d

theorem cat_probs_online_raw_eq :
    cat_probs_online_raw = [29 / 100, 7 / 50, 7 / 50, 7 / 50, 17 / 100, 3 / 25] := by
  have h1 : categories.indexOf "Electronics" = 4 := by decide
  have h2 : categories.indexOf "Groceries" = 0 := by decide
  have h3 : categories.indexOf "Household" = 2 := by decide
  simp only [cat_probs_online_raw, base_cat_probs, h1, h2, h3]
  norm_num [List.set, List.getD]

theorem cat_probs_online_eq :
    cat_probs_online = [29 / 100, 7 / 50, 7 / 50, 7 / 50, 17 / 100, 3 / 25] := by
  simp only [cat_probs_online, cat_probs_online_raw_eq]
  norm_num

theorem catProbsFor_online : catProbsFor "Online" = cat_probs_online := by
  unfold catProbsFor; rw [if_pos rfl]

theorem catProbsFor_instore : catProbsFor "In-store" = base_cat_probs := by
  unfold catProbsFor; rw [if_neg (by decide)]

theorem pmProbsFor_online : pmProbsFor "Online" = pm_probs_online := by
  unfold pmProbsFor; rw [if_pos rfl]

theorem pmProbsFor_instore : pmProbsFor "In-store" = pm_probs_instore := by
  unfold pmProbsFor; rw [if_neg (by decide)]

theorem catalog_groceries : catalog "Groceries" =
    [("Rice 5kg", 18), ("Pasta Pack", 2.5), ("Olive Oil 1L", 10),
     ("Breakfast Cereal", 4.5), ("Coffee 250g", 6)] := by
  unfold catalog; rw [if_pos rfl]

theorem catalog_clothing : catalog "Clothing" =
    [("T-Shirt", 12), ("Jeans", 35), ("Sneakers", 55), ("Jacket", 70)] := by
  unfold catalog
  rw [if_neg (by decide), if_neg (by decide), if_neg (by decide), if_neg (by decide),
    if_neg (by decide), if_pos rfl]

theorem qtyRange_groceries : qtyRange "Groceries" = (1, 6) := by
  unfold qtyRange; rw [if_pos (by decide)]

theorem qtyRange_clothing : qtyRange "Clothing" = (1, 4) := by
  unfold qtyRange; rw [if_neg (by decide), if_pos rfl]

theorem discountTable_groceries : discountTable "Groceries" =
    [(0, 0.75), (0.05, 0.18), (0.10, 0.07)] := by
  unfold discountTable; rw [if_pos rfl]

theorem discountTable_clothing : discountTable "Clothing" =
    [(0, 0.35), (0.10, 0.35), (0.20, 0.20), (0.30, 0.10)] := by
  unfold discountTable; rw [if_neg (by decide), if_neg (by decide), if_pos rfl]

theorem wDraws_valid : DrawsValid wParams wDraws := by
  unfold DrawsValid
  simp only [wParams, wDraws, GenParams.days, storeIds, stores, List.map, channels,
    categories, nCustomers, pm, List.getD_cons_zero, List.getD_cons_succ,
    catProbsFor_online, pmProbsFor_online, catalog_groceries, qtyRange_groceries,
    discountTable_groceries, store_probs, channel_probs, cat_probs_online_eq,
    pm_probs_online, List.length_cons, List.length_nil]
  norm_num

theorem cDraws_valid : DrawsValid wParams cDraws := by
  unfold DrawsValid
  simp only [wParams, cDraws, GenParams.days, storeIds, stores, List.map, channels,
    categories, nCustomers, pm, List.getD_cons_zero, List.getD_cons_succ,
    catProbsFor_instore, pmProbsFor_instore, catalog_clothing, qtyRange_clothing,
    discountTable_clothing, store_probs, channel_probs, base_cat_probs,
    pm_probs_instore, List.length_cons, List.length_nil]
  norm_num

/-! Claim theorems. -/

/-- C1 counterexample: the header row written by generate_urbanmart_sales is
not the 14 column names listed in section 3 of the specification: the fifth
column is named transaction_type in the code, not channel. -/
theorem csv_header_differs_from_spec :
    csvHeader ≠ specHeader ∧
    csvHeader.getD 4 "" = "transaction_type" ∧
    specHeader.getD 4 "" = "channel" := by
  exact ⟨by decide, by decide, by decide⟩

/-- C1 (amended): the persisted CSV is comma-delimited with one row per
transaction after the header row; the header has 14 column names agreeing
with the specification list except that the fifth is transaction_type
instead of channel; dates are rendered as ISO 8601 YYYY-MM-DD; every row has
exactly the 14 cells and no index cell. -/
theorem csv_file_shape (p : GenParams) (draws : ℕ → Draws) (seg : ℕ → ℕ) :
    (csvLines (generate p draws seg)).length = p.n_transactions + 1 ∧
    (csvLines (generate p draws seg)).headD [] = csvHeader ∧
    csvHeader.length = 14 ∧
    csvHeader.getD 4 "" = "transaction_type" ∧
    (∀ j, j < 14 → j ≠ 4 → csvHeader.getD j "" = specHeader.getD j "") ∧
    (∀ line ∈ csvLines (generate p draws seg), line.length = 14) ∧
    (∀ r ∈ generate p draws seg, isIsoDateStr (dateStr r.date) = true) := by
  refine ⟨?_, rfl, by decide, by decide, by decide, ?_, ?_⟩
  · unfold csvLines
    rw [List.length_cons, List.length_map, length_generate]
  · intro line hline
    rcases List.mem_cons.mp hline with h | h
    · rw [h]; decide
    · rcases List.mem_map.mp h with ⟨r, _, hr⟩
      rw [← hr]; rfl
  · intro r _
    exact isIso_dateStr r.date

/-- C1 amended witness: concrete one-transaction instantiation of the CSV
shape theorem. -/
theorem csv_file_shape_witness :
    (csvLines (generate wParams (fun _ => wDraws) (fun _ => 0))).length = 1 + 1 ∧
    (recordFields wRecord).length = 14 ∧
    isIsoDateStr (dateStr wRecord.date) = true := by
  have h := csv_file_shape wParams (fun _ => wDraws) (fun _ => 0)
  refine ⟨h.1, ?_, ?_⟩
  · exact h.2.2.2.2.2.1 (recordFields wRecord)
      (List.mem_cons_of_mem _ (List.mem_map_of_mem recordFields
        (List.mem_singleton.mpr rfl)))
  · exact h.2.2.2.2.2.2 wRecord (List.mem_singleton.mpr rfl)

/-- C3: for a fixed seed and count the generator is deterministic: all
randomness flows from the seeded numpy generator, modelled as deterministic
streams of the seed, so two runs with equal seeds produce byte-identical
CSV text. -/
theorem fixed_seed_reproducible (stream : ℕ → ℕ → Draws) (segStream : ℕ → ℕ → ℕ)
    (p : GenParams) (seed1 seed2 : ℕ) (h : seed1 = seed2) :
    csvText (generateSeeded stream segStream p seed1) =
      csvText (generateSeeded stream segStream p seed2) := by
  rw [h]

/-- C3 witness: two runs at the concrete seed 42 agree. -/
theorem fixed_seed_reproducible_witness :
    csvText (generateSeeded (fun _ _ => wDraws) (fun _ _ => 0) wParams 42) =
      csvText (generateSeeded (fun _ _ => wDraws) (fun _ _ => 0) wParams 42) :=
  fixed_seed_reproducible (fun _ _ => wDraws) (fun _ _ => 0) wParams 42 42 rfl

/-- C4: the manual transaction-type counter, on the test input of the
specification, produces Online = 2 and In-store = 3; the null and the
non-string cell contribute nothing to the tally (a list of only such cells
counts (0, 0)), and the counter is a total function, so it cannot crash. -/
theorem manual_counter_counts :
    countTypes counterTestInput = (2, 3) ∧
    countTypes [Cell.null, Cell.num 42] = (0, 0) :=
  ⟨by decide, by decide⟩

/-- C6: the online category weight vector comes from the base vector by
moving 0.03 out of Groceries and 0.02 out of Household into Electronics
(0.05 in total); the shifted vector has the same sum as the base vector and
already sums to 1, so the explicit renormalization is the identity, and the
Electronics entry ends at 0.17. -/
theorem online_category_weights :
    cat_probs_online_raw = [29 / 100, 7 / 50, 7 / 50, 7 / 50, 17 / 100, 3 / 25] ∧
    cat_probs_online_raw.sum = base_cat_probs.sum ∧
    cat_probs_online_raw.sum = 1 ∧
    cat_probs_online = cat_probs_online_raw ∧
    cat_probs_online.sum = 1 ∧
    cat_probs_online.getD (categories.indexOf "Electronics") 0 = 17 / 100 := by
  have h4 : categories.indexOf "Electronics" = 4 := by decide
  refine ⟨cat_probs_online_raw_eq, ?_, ?_, ?_, ?_, ?_⟩ <;>
    simp [cat_probs_online_raw_eq, cat_probs_online_eq, base_cat_probs, h4] <;>
    norm_num

/-- C8: when the CSV file is missing, both the analysis entry point and the
dashboard data loader invoke the generator with the default parameters
(25000 transactions, seed 42) and read the freshly generated table; when the
file exists, both read it as is, leaving it unchanged and without invoking
the generator. -/
theorem missing_file_regenerates (stream : ℕ → ℕ → Draws) (segStream : ℕ → ℕ → ℕ)
    (t : List Record) :
    analysisEnsure Option.none stream segStream =
      (some (generate defaultParams (stream 42) (segStream 42)),
        generate defaultParams (stream 42) (segStream 42)) ∧
    getData Option.none stream segStream =
      (some (generate defaultParams (stream 42) (segStream 42)),
        generate defaultParams (stream 42) (segStream 42)) ∧
    analysisEnsure (some t) stream segStream = (some t, t) ∧
    getData (some t) stream segStream = (some t, t) :=
  ⟨rfl, rfl, rfl, rfl⟩

/-- C10: the average-order-value KPI of the dashboard equals
total sales divided by the distinct-order count exactly when the filtered
subset is nonempty (the divisor is then nonzero), and is 0 when the filtered
subset is empty, so the division is never performed with a zero divisor. -/
theorem aov_division_guarded (df : List Record) (startD endD : ℕ)
    (storeSel catSel chanSel : List String) :
    (applyFilters df startD endD storeSel catSel chanSel = [] →
      aov (applyFilters df startD endD storeSel catSel chanSel) = 0) ∧
    (applyFilters df startD endD storeSel catSel chanSel ≠ [] →
      orders (applyFilters df startD endD storeSel catSel chanSel) ≠ 0 ∧
      aov (applyFilters df startD endD storeSel catSel chanSel) =
        totalSales (applyFilters df startD endD storeSel catSel chanSel) /
          (orders (applyFilters df startD endD storeSel catSel chanSel) : ℚ)) := by
  have key : ∀ l : List Record,
      (l = [] → aov l = 0) ∧
      (l ≠ [] → orders l ≠ 0 ∧ aov l = totalSales l / (orders l : ℚ)) := by
    intro l
    constructor
    · rintro rfl
      rfl
    · intro hne
      have hx : ∃ x, x ∈ l := by
        cases l with
        | nil => exact absurd rfl hne
        | cons a as => exact ⟨a, List.mem_cons_self a as⟩
      obtain ⟨x, hx⟩ := hx
      have h1 : x.transaction_id ∈ l.map (fun r => r.transaction_id) :=
        List.mem_map_of_mem _ hx
      have h2 : x.transaction_id ∈ (l.map (fun r => r.transaction_id)).dedup :=
        List.mem_dedup.mpr h1
      have h3 : orders l ≠ 0 := by
        unfold orders
        intro h0
        rw [List.length_eq_zero] at h0
        rw [h0] at h2
        exact List.not_mem_nil _ h2
      exact ⟨h3, by unfold aov; rw [if_pos h3]⟩
  exact key _

/-- C10 witness: the empty filtered subset yields an average order value
of 0. -/
theorem aov_division_guarded_witness :
    aov (applyFilters [] 0 0 [] [] []) = 0 :=
  (aov_division_guarded [] 0 0 [] [] []).1 rfl

theorem net_bounds_aux (base f : ℚ) (q : ℕ) (disc : ℚ)
    (hbase : 5 / 2 ≤ base) (hf1 : (0.95 : ℚ) ≤ f) (hq : 1 ≤ q)
    (hd0 : 0 ≤ disc) (hd3 : disc ≤ 3 / 10) (hd : disc = 0 ∨ 1 / 20 ≤ disc) :
    round2 (round2 (base * f) * (q : ℚ) * (1 - disc)) ≤ round2 (base * f) * (q : ℚ) ∧
    7 / 10 * (round2 (base * f) * (q : ℚ)) - 1 / 200 ≤
      round2 (round2 (base * f) * (q : ℚ) * (1 - disc)) := by
  have hq1 : (1 : ℚ) ≤ (q : ℚ) := by exact_mod_cast hq
  have hf : (19 / 20 : ℚ) ≤ f := by linarith
  have h1 : (19 / 8 : ℚ) ≤ base * f := by
    nlinarith [mul_nonneg (sub_nonneg.mpr hbase) (sub_nonneg.mpr hf)]
  have hPlb : (238 / 100 : ℚ) ≤ round2 (base * f) := by
    calc (238 / 100 : ℚ) = round2 (19 / 8) := by norm_num [round2, round_eq]
      _ ≤ round2 (base * f) := round2_mono h1
  have hP0 : 0 ≤ round2 (base * f) := by linarith
  have hgross : (238 / 100 : ℚ) ≤ round2 (base * f) * (q : ℚ) := by nlinarith
  have hgross0 : 0 ≤ round2 (base * f) * (q : ℚ) := by linarith
  have hclose := round2_close (round2 (base * f) * (q : ℚ) * (1 - disc))
  rcases hd with h0 | h5
  · subst h0
    have heq : round2 (round2 (base * f) * (q : ℚ) * (1 - 0)) =
        round2 (base * f) * (q : ℚ) := by
      rw [sub_zero, mul_one, round2_mul_nat]
    rw [heq]
    exact ⟨le_refl _, by nlinarith⟩
  · constructor
    · nlinarith [hclose.2,
        mul_nonneg (by linarith : (0 : ℚ) ≤ disc - 1 / 20)
          (by linarith : (0 : ℚ) ≤ round2 (base * f) * (q : ℚ) - 1 / 10)]
    · nlinarith [hclose.1,
        mul_nonneg (by linarith : (0 : ℚ) ≤ 3 / 10 - disc) hgross0]

/-- C2: every generated record has sales_amount equal to
round(unit_price * quantity * (1 - discount_pct), 2), and sales_amount is
nonnegative. -/
theorem sales_amount_formula (p : GenParams) (draws : ℕ → Draws) (seg : ℕ → ℕ)
    (hv : ∀ i, DrawsValid p (draws i)) :
    ∀ r ∈ generate p draws seg,
      r.sales_amount = round2 (r.unit_price * (r.quantity : ℚ) * (1 - r.discount_pct)) ∧
      0 ≤ r.sales_amount := by
  intro r hr
  obtain ⟨i, hi, rfl⟩ := mem_generate hr
  obtain ⟨_, _, _, _, _, _, _, _, hf1, _, _, _, _, _, _, _, _⟩ := hv i
  refine ⟨rfl, ?_⟩
  apply round2_nonneg
  have hbase : 0 ≤ ((catalog (categories.getD (draws i).catIdx "")).getD
      (draws i).prodIdx ("", 0)).2 := by
    rcases getD_mem_or (catalog (categories.getD (draws i).catIdx ""))
        (draws i).prodIdx ("", 0) with h | h
    · linarith [catalog_base_lb _ _ h]
    · rw [h]
  have hdisc : 0 ≤ ((discountTable (categories.getD (draws i).catIdx "")).getD
        (draws i).discIdx (0, 0)).1 ∧
      ((discountTable (categories.getD (draws i).catIdx "")).getD
        (draws i).discIdx (0, 0)).1 ≤ 3 / 10 := by
    rcases getD_mem_or (discountTable (categories.getD (draws i).catIdx ""))
        (draws i).discIdx (0, 0) with h | h
    · have hb := discount_bounds _ _ h
      exact ⟨hb.1, hb.2.1⟩
    · rw [h]
      norm_num
  have hprice : 0 ≤ round2 (((catalog (categories.getD (draws i).catIdx "")).getD
      (draws i).prodIdx ("", 0)).2 * (draws i).priceFactor) :=
    round2_nonneg (mul_nonneg hbase (by linarith))
  have hqc : (0 : ℚ) ≤ ((draws i).qtyDraw : ℚ) := Nat.cast_nonneg _
  exact mul_nonneg (mul_nonneg hprice hqc) (by linarith [hdisc.2])

/-- C2 witness: the single generated record of the concrete run satisfies
the sales-amount formula and nonnegativity. -/
theorem sales_amount_formula_witness :
    wRecord.sales_amount =
      round2 (wRecord.unit_price * (wRecord.quantity : ℚ) * (1 - wRecord.discount_pct)) ∧
    0 ≤ wRecord.sales_amount :=
  sales_amount_formula wParams (fun _ => wDraws) (fun _ => 0) (fun _ => wDraws_valid)
    wRecord (List.mem_singleton.mpr rfl)

/-- C5: every generated record carries a product drawn from its own
category's catalog (the uniform index draw ranges over the whole catalog),
and its unit price is the catalog base price times a factor in
[0.95, 1.10], rounded to 2 decimals. -/
theorem unit_price_from_catalog (p : GenParams) (draws : ℕ → Draws) (seg : ℕ → ℕ)
    (hv : ∀ i, DrawsValid p (draws i)) :
    ∀ r ∈ generate p draws seg,
      ∃ pr ∈ catalog r.product_category, ∃ f : ℚ,
        r.product_name = pr.1 ∧ (0.95 : ℚ) ≤ f ∧ f ≤ (1.10 : ℚ) ∧
        r.unit_price = round2 (pr.2 * f) := by
  intro r hr
  obtain ⟨i, hi, rfl⟩ := mem_generate hr
  obtain ⟨_, _, _, _, _, _, _, hprod, hf1, hf2, _, _, _, _, _, _, _⟩ := hv i
  refine ⟨(catalog (categories.getD (draws i).catIdx "")).getD (draws i).prodIdx ("", 0),
    ?_, (draws i).priceFactor, rfl, hf1, le_of_lt hf2, rfl⟩
  rw [List.getD_eq_getElem _ _ hprod]
  apply List.getElem_mem

/-- C5 witness: the single generated record of the concrete run has a
catalog product and a priced-from-catalog unit price. -/
theorem unit_price_from_catalog_witness :
    ∃ pr ∈ catalog wRecord.product_category, ∃ f : ℚ,
      wRecord.product_name = pr.1 ∧ (0.95 : ℚ) ≤ f ∧ f ≤ (1.10 : ℚ) ∧
      wRecord.unit_price = round2 (pr.2 * f) :=
  unit_price_from_catalog wParams (fun _ => wDraws) (fun _ => 0) (fun _ => wDraws_valid)
    wRecord (List.mem_singleton.mpr rfl)

/-- C7: no generated record pays Cash on the Online channel: the Online
payment weight vector gives Cash probability exactly 0, and a weighted
choice never returns a zero-weight item. -/
theorem online_never_cash (p : GenParams) (draws : ℕ → Draws) (seg : ℕ → ℕ)
    (hv : ∀ i, DrawsValid p (draws i)) :
    ∀ r ∈ generate p draws seg,
      r.transaction_type = "Online" → r.payment_method ≠ "Cash" := by
  intro r hr hon
  obtain ⟨i, hi, rfl⟩ := mem_generate hr
  obtain ⟨_, _, _, hch, _, _, _, _, _, _, _, _, _, _, _, hpay, hpprob⟩ := hv i
  have hch2 : channels.getD (draws i).channelIdx "" = "Online" := hon
  show pm.getD (draws i).payIdx "" ≠ "Cash"
  have hlen : (draws i).channelIdx < 2 := by simpa [channels] using hch
  have hpay4 : (draws i).payIdx < 4 := by simpa [pm] using hpay
  have hc01 : (draws i).channelIdx = 0 ∨ (draws i).channelIdx = 1 := by omega
  rcases hc01 with h0 | h1
  · rw [h0] at hpprob
    have hon0 : channels.getD 0 "" = "Online" := rfl
    rw [hon0, pmProbsFor_online] at hpprob
    have hp03 : (draws i).payIdx = 0 ∨ (draws i).payIdx = 1 ∨
        (draws i).payIdx = 2 ∨ (draws i).payIdx = 3 := by omega
    rcases hp03 with h | h | h | h <;> rw [h] <;> rw [h] at hpprob
    · decide
    · exfalso
      apply hpprob
      norm_num [pm_probs_online, List.getD]
    · decide
    · decide
  · rw [h1] at hch2
    exact absurd hch2 (by decide)

/-- C7 witness: the concrete Online record does not pay Cash. -/
theorem online_never_cash_witness :
    wRecord.transaction_type = "Online" ∧ wRecord.payment_method ≠ "Cash" :=
  ⟨rfl, online_never_cash wParams (fun _ => wDraws) (fun _ => 0) (fun _ => wDraws_valid)
    wRecord (List.mem_singleton.mpr rfl) rfl⟩

/-- C9 counterexample: a valid draw (Clothing T-Shirt at price factor
0.9525, quantity 1, discount 0.30) produces unit price 11.43 and sales
amount round(8.001, 2) = 8.00, which is strictly below 70 percent of the
gross amount 11.43, so the as-stated 70-percent floor fails. -/
theorem seventy_percent_floor_violated :
    DrawsValid wParams cDraws ∧
    cRecord ∈ generate wParams (fun _ => cDraws) (fun _ => 0) ∧
    cRecord.sales_amount < 7 / 10 * (cRecord.unit_price * (cRecord.quantity : ℚ)) := by
  refine ⟨cDraws_valid, List.mem_singleton.mpr rfl, ?_⟩
  have hcat : categories.getD (5 : ℕ) "" = "Clothing" := by decide
  have hvals : cRecord.unit_price = 1143 / 100 ∧ cRecord.quantity = 1 ∧
      cRecord.sales_amount = 8 := by
    refine ⟨?_, rfl, ?_⟩ <;>
      simp only [cRecord, mkRecord, cDraws, wParams, hcat, catalog_clothing,
        discountTable_clothing, List.getD_cons_zero, List.getD_cons_succ] <;>
      norm_num [round2, round_eq]
  rw [hvals.1, hvals.2.1, hvals.2.2]
  norm_num

/-- C9 (amended): every generated record has discount_pct in [0, 0.30], its
sales amount never exceeds the gross amount unit_price * quantity, and the
net amount is at least 70 percent of gross minus the half-cent rounding
slack 1/200. -/
theorem discount_and_sales_bounds (p : GenParams) (draws : ℕ → Draws) (seg : ℕ → ℕ)
    (hv : ∀ i, DrawsValid p (draws i)) :
    ∀ r ∈ generate p draws seg,
      0 ≤ r.discount_pct ∧ r.discount_pct ≤ 3 / 10 ∧
      r.sales_amount ≤ r.unit_price * (r.quantity : ℚ) ∧
      7 / 10 * (r.unit_price * (r.quantity : ℚ)) - 1 / 200 ≤ r.sales_amount := by
  intro r hr
  obtain ⟨i, hi, rfl⟩ := mem_generate hr
  obtain ⟨_, _, _, _, _, _, _, hprod, hf1, _, hqlo, _, hdix, _, _, _, _⟩ := hv i
  have hdmem : (discountTable (categories.getD (draws i).catIdx "")).getD
      (draws i).discIdx (0, 0) ∈ discountTable (categories.getD (draws i).catIdx "") := by
    rw [List.getD_eq_getElem _ _ hdix]
    apply List.getElem_mem
  have hdb := discount_bounds _ _ hdmem
  have hpmem : (catalog (categories.getD (draws i).catIdx "")).getD
      (draws i).prodIdx ("", 0) ∈ catalog (categories.getD (draws i).catIdx "") := by
    rw [List.getD_eq_getElem _ _ hprod]
    apply List.getElem_mem
  have hbase := catalog_base_lb _ _ hpmem
  have hq1 : 1 ≤ (draws i).qtyDraw := by
    rw [← qtyRange_lo (categories.getD (draws i).catIdx "")]
    exact hqlo
  have haux := net_bounds_aux
    ((catalog (categories.getD (draws i).catIdx "")).getD (draws i).prodIdx ("", 0)).2
    (draws i).priceFactor (draws i).qtyDraw
    ((discountTable (categories.getD (draws i).catIdx "")).getD (draws i).discIdx (0, 0)).1
    hbase hf1 hq1 hdb.1 hdb.2.1 hdb.2.2
  exact ⟨hdb.1, hdb.2.1, haux.1, haux.2⟩

/-- C9 amended witness: the concrete generated record satisfies the
amended discount and sales bounds. -/
theorem discount_and_sales_bounds_witness :
    0 ≤ wRecord.discount_pct ∧ wRecord.discount_pct ≤ 3 / 10 ∧
    wRecord.sales_amount ≤ wRecord.unit_price * (wRecord.quantity : ℚ) ∧
    7 / 10 * (wRecord.unit_price * (wRecord.quantity : ℚ)) - 1 / 200 ≤
      wRecord.sales_amount :=
  discount_and_sales_bounds wParams (fun _ => wDraws) (fun _ => 0) (fun _ => wDraws_valid)
    wRecord (List.mem_singleton.mpr rfl)

end UrbanMart
